import Mathlib

/-!
Verification of the aws-mcp server (src/index.ts) against its specification.

The development shallowly embeds the pure control flow of the TypeScript
source: JavaScript objects become structures and association lists,
exceptions become Except, the filesystem, the external login command and
the network calls become explicit oracle fields of an environment record,
and JavaScript truthiness of optional strings is modelled explicitly.
-/

namespace AwsMcp

/-! ## JavaScript truthiness helpers -/

/-- Truthiness of a possibly-absent JavaScript string: undefined and the
empty string are falsy, every other string is truthy. -/
def truthyS : Option String → Bool
  | none => false
  | some s => !(s == "")

/-- Truthiness of a possibly-absent non-string value (a Date or a parsed
timestamp): present means truthy. -/
def truthyTs : Option Int → Bool
  | none => false
  | some _ => true

/-- The JavaScript idiom x OR-ELSE d on an optional string x
(src/index.ts lines 188 and 225: region with default us-east-1). -/
def jsOr (v : Option String) (d : String) : String :=
  if truthyS v then v.getD d else d

/-! ## Execution sandbox (wrapUserCode, src/index.ts lines 247-269, and the
run-aws-code execution branch, lines 200-212)

Scripts are modelled as statement lists over a small expression language:
the fragment needed by the claims (numeric literals and addition, return
statements, bare expression statements, throw statements, and any other
statement kind such as a variable declaration, collapsed into one
constructor since the source treats every non-expression statement alike).
-/

inductive Expr where
  | lit (n : Int)
  | add (a b : Expr)
deriving DecidableEq

inductive Stmt where
  | exprStmt (e : Expr)
  | returnStmt (e : Expr)
  | throwStmt (msg : String)
  | other
deriving DecidableEq

def evalExpr : Expr → Int
  | .lit n => n
  | .add a b => evalExpr a + evalExpr b

/-- wrapUserCode (src/index.ts lines 247-269): if the last statement is an
ExpressionStatement, a return of that expression is appended at the end of
the file (addStatements) and the original expression statement removed,
i.e. the last statement is replaced by a return of its expression.  Every
other shape of last statement is left untouched. -/
def wrapUserCode (stmts : List Stmt) : List Stmt :=
  match stmts.getLast? with
  | some (Stmt.exprStmt e) => stmts.dropLast ++ [Stmt.returnStmt e]
  | _ => stmts

/-- Running the wrapped function body (the async IIFE of line 201):
statements execute in order; a return statement ends execution with its
value, a throw rejects, and falling off the end produces undefined
(modelled as none). -/
def runBody : List Stmt → Except String (Option Int)
  | [] => .ok none
  | Stmt.returnStmt e :: _ => .ok (some (evalExpr e))
  | Stmt.throwStmt m :: _ => .error m
  | _ :: rest => runBody rest

/-- JSON.stringify on the produced value: JSON.stringify(undefined) is
undefined (not a string), while a number serializes to its decimal text. -/
def jsonStringify : Option Int → Option String
  | none => none
  | some n => some (toString n)

/-- Outcome of the run-aws-code execution branch (src/index.ts lines
203-212): on resolution the handler returns
createTextResponse(JSON.stringify(result)); on rejection the catch block
returns an error text response. -/
inductive RunOutcome where
  | success (text : Option String)
  | scriptError (text : String)
deriving DecidableEq

def RunOutcome.isScriptError : RunOutcome → Bool
  | .scriptError _ => true
  | _ => false

/-- The execution pipeline of the run-aws-code branch applied to a script:
wrap, run, stringify, respond (src/index.ts lines 200-212). -/
def runAwsCodeExec (stmts : List Stmt) : RunOutcome :=
  match runBody (wrapUserCode stmts) with
  | .ok v => .success (jsonStringify v)
  | .error m => .scriptError ("Error executing code: " ++ m)

/-! ## Session state (src/index.ts lines 87-89) and the tool handlers -/

structure Credentials where
  accessKeyId : String
  secretAccessKey : String
  sessionToken : Option String
deriving DecidableEq

structure SessionState where
  selectedProfile : Option String
  selectedProfileCredentials : Option Credentials
  selectedProfileRegion : String
deriving DecidableEq

/-- The select-profile branch (src/index.ts lines 217-230).  The
credential-resolution call (retryAwsOperation around getCredentials) is
abstracted as its final result credResult; on success the three module
globals are assigned in sequence within the same handler turn and the
handler returns Authenticated!, on failure the catch block returns an
authentication-failure message and no assignment has happened. -/
def selectProfileHandler (st : SessionState) (profile : String) (region : Option String)
    (credResult : Except String Credentials) : SessionState × String :=
  match credResult with
  | .ok c =>
    ({ selectedProfile := some profile,
       selectedProfileCredentials := some c,
       selectedProfileRegion := jsOr region "us-east-1" }, "Authenticated!")
  | .error e => (st, "Authentication failed: " ++ e)

/-- Control outcome of the session-state part of the run-aws-code branch
(src/index.ts lines 174-198), before any code is executed. -/
inductive RunPhase where
  | noProfileGuidance
  | authFailure (msg : String)
  | proceed
deriving DecidableEq

/-- The session-state effect of the run-aws-code branch (src/index.ts
lines 174-198): with no selected profile and no supplied profileName it
returns guidance; with a truthy profileName it resolves credentials and on
success assigns credentials, profile and region (the region falling back
to us-east-1 when not supplied), on failure it returns early leaving the
state untouched; with no profileName it proceeds on the existing state. -/
def runAwsCodeSession (st : SessionState) (profileName region : Option String)
    (credResult : Except String Credentials) : SessionState × RunPhase :=
  if !truthyS st.selectedProfile && !truthyS profileName then
    (st, .noProfileGuidance)
  else if truthyS profileName then
    match credResult with
    | .ok c =>
      ({ selectedProfile := profileName,
         selectedProfileCredentials := some c,
         selectedProfileRegion := jsOr region "us-east-1" }, .proceed)
    | .error e =>
      (st, .authFailure ("Failed to authenticate with profile " ++ profileName.getD "" ++ ": " ++ e))
  else
    (st, .proceed)

/-! ## retryAwsOperation (src/index.ts lines 36-54) -/

/-- The retry loop body: attempt numbers count up from the given attempt,
fuel is the number of attempts still allowed (maxRetries - attempt + 1),
lastError carries the last caught error.  On success the loop returns at
once; on failure it sleeps delay * attempt (recorded in the returned list)
iff a further attempt remains, otherwise the loop ends and lastError is
thrown. -/
def retryLoop {α : Type} (op : Nat → Except String α) (delay attempt : Nat) :
    Nat → Option String → Except String α × List Nat
  | 0, lastError => (.error (lastError.getD "undefined"), [])
  | fuel + 1, _ =>
    match op attempt with
    | .ok v => (.ok v, [])
    | .error e =>
      if fuel = 0 then
        (.error e, [])
      else
        let r := retryLoop op delay (attempt + 1) fuel (some e)
        (r.1, delay * attempt :: r.2)

/-- retryAwsOperation (src/index.ts lines 36-54), returning the final
result together with the list of sleep delays performed between attempts.
The source defaults are maxRetries = 3 and delay = 1000. -/
def retryAwsOperation {α : Type} (op : Nat → Except String α) (maxRetries delay : Nat) :
    Except String α × List Nat :=
  retryLoop op delay 1 maxRetries none

/-! ## listCredentials (src/index.ts lines 271-297) -/

/-- A raw profile: an unordered attribute bag of string keys and values. -/
abbrev AttrBag := List (String × String)

/-- A JavaScript object mapping profile names to attribute bags, modelled
as an association list (first binding of a key wins on lookup; a loaded
ini object never repeats a key). -/
abbrev ProfileMap := List (String × AttrBag)

def lookupP (m : ProfileMap) (n : String) : Option AttrBag :=
  match m with
  | [] => none
  | p :: rest => if p.1 == n then some p.2 else lookupP rest n

/-- The object spread of line 292: keys of the first object, then keys of
the second object with the second winning on collision. -/
def spreadMerge (a b : ProfileMap) : ProfileMap :=
  a.filter (fun p => (lookupP b p.1).isNone) ++ b

structure ListCredentialsResult where
  profiles : ProfileMap
  error : Option String
deriving DecidableEq

/-- listCredentials (src/index.ts lines 271-297).  The two IniLoader reads
are abstracted as their results (ok with the loaded map, or error with the
thrown message).  Each read is wrapped in try/catch, so the function never
raises.  Each catch clause is written catch (error) and assigns to error:
that assignment targets the catch parameter, which shadows the outer let
error binding, so the outer error is never written and is returned still
undefined (none) on every path. -/
def listCredentials (credentialsLoad configsLoad : Except String ProfileMap) :
    ListCredentialsResult :=
  let credentials := match credentialsLoad with
    | .ok m => some m
    | .error _ => none
  let configs := match configsLoad with
    | .ok m => some m
    | .error _ => none
  { profiles := spreadMerge (credentials.getD []) (configs.getD []),
    error := none }

/-! ## getCredentials (src/index.ts lines 299-453)

The profile passed to getCredentials is read through the specific keys
the function uses.  The filesystem, the external aws sso login command and
the SSO getRoleCredentials network call (already wrapped in
retryAwsOperation in the source; abstracted here as its final result) are
oracle fields of the environment record. -/

structure Profile where
  sso_session : Option String
  sso_account_id : Option String
  sso_role_name : Option String
  region : Option String
deriving DecidableEq

/-- An sso-session section of the config file, as extracted by the two
regex matches of lines 325-326: the sso_start_url line and the sso_region
line, either possibly absent. -/
structure SSOSessionConfig where
  startUrl : Option String
  ssoRegion : Option String
deriving DecidableEq

/-- A parsed token cache file (lines 353-357): the startUrl, accessToken
and expiresAt fields, each possibly absent.  expiresAt is modelled as the
parsed epoch timestamp of the date string; a present field is truthy. -/
structure CacheEntry where
  startUrl : Option String
  accessToken : Option String
  expiresAt : Option Int
deriving DecidableEq

/-- The roleCredentials object of a getRoleCredentials response (line
427), each field possibly absent.  expiration is modelled as a parsed
timestamp. -/
structure RoleCredentialsData where
  accessKeyId : Option String
  secretAccessKey : Option String
  sessionToken : Option String
  expiration : Option Int
deriving DecidableEq

/-- The environment of one getCredentials run: the sso-session sections
available in the config file, the cache directory listing before the
login command (a none element is a file whose JSON.parse throws and is
skipped), the result of the external login command (error = the promise
rejected: command not found or non-zero exit), the cache directory
listing after the command, the current time, and the final result of the
retried getRoleCredentials call (ok none = a response without a
roleCredentials member). -/
structure SsoEnv where
  sessions : List (String × SSOSessionConfig)
  cacheBefore : List (Option CacheEntry)
  loginResult : Except String Unit
  cacheAfter : List (Option CacheEntry)
  now : Int
  roleCredentialsResult : Except String (Option RoleCredentialsData)

def lookupSession (ss : List (String × SSOSessionConfig)) (n : String) :
    Option SSOSessionConfig :=
  match ss with
  | [] => none
  | p :: rest => if p.1 == n then some p.2 else lookupSession rest n

/-- The cache entry validity test of lines 357 and 391:
cache.startUrl === startUrl, cache.accessToken truthy, cache.expiresAt
truthy, and new Date(cache.expiresAt) > new Date(). -/
def isValidCacheEntry (e : CacheEntry) (startUrl : String) (now : Int) : Bool :=
  e.startUrl == some startUrl && truthyS e.accessToken &&
    match e.expiresAt with
    | some t => decide (now < t)
    | none => false

/-- The cache scan loop of lines 351-366 (and again 386-400): examine the
files in directory order, skip unparsable ones, and take the accessToken
of the first valid entry. -/
def findValidToken (files : List (Option CacheEntry)) (startUrl : String) (now : Int) :
    Option String :=
  match files with
  | [] => none
  | none :: rest => findValidToken rest startUrl now
  | some e :: rest =>
    if isValidCacheEntry e startUrl now then e.accessToken
    else findValidToken rest startUrl now

/-- Token acquisition (lines 342-404): scan the cache; if no valid token,
run the external login command, and only when that command resolves
(exit status zero) re-scan the cache once — the re-scan sits inside the
same try block as the command, so a rejected command skips it (the catch
at line 401 only logs). -/
def resolveToken (env : SsoEnv) (startUrl : String) : Option String :=
  match findValidToken env.cacheBefore startUrl env.now with
  | some t => some t
  | none =>
    match env.loginResult with
    | .error _ => none
    | .ok _ => findValidToken env.cacheAfter startUrl env.now

/-- Outcome of getCredentials as observed by its caller: temporary role
credentials from the SSO exchange, or the fallthrough call to
useAWSCredentialsProvider(profileName) at line 452, or an error escaping
to the caller.  The configError constructor exists to state the claimed
behaviour; the embedded code never produces it, because the outer catch
of lines 445-447 swallows every error thrown inside the SSO branch. -/
inductive GetCredsOutcome where
  | ssoCredentials (c : Credentials)
  | fallback (profileName : String)
  | configError (msg : String)
deriving DecidableEq

def GetCredsOutcome.isConfigError : GetCredsOutcome → Bool
  | .configError _ => true
  | _ => false

/-- The role-credential exchange (lines 407-444): on a rejected call, a
response without roleCredentials, or an incomplete credential tuple, the
thrown error is caught (line 439 or the outer catch) and control falls
through to the provider chain; on a complete tuple an AWS.Credentials
value is returned. -/
def exchangeRole (env : SsoEnv) (profileName : String) : GetCredsOutcome :=
  match env.roleCredentialsResult with
  | .error _ => .fallback profileName
  | .ok none => .fallback profileName
  | .ok (some rc) =>
    if truthyS rc.accessKeyId && truthyS rc.secretAccessKey &&
       truthyS rc.sessionToken && truthyTs rc.expiration then
      .ssoCredentials { accessKeyId := rc.accessKeyId.getD "",
                        secretAccessKey := rc.secretAccessKey.getD "",
                        sessionToken := rc.sessionToken }
    else .fallback profileName

/-- getCredentials (src/index.ts lines 299-453).  With a truthy
sso_session key: look up the referenced sso-session section (a missing
section or a section without sso_start_url throws, and the throw is
swallowed by the outer catch, falling through to the provider chain);
then acquire a token via resolveToken; with no token fall through; with a
token perform the role exchange.  Without a truthy sso_session key the
function goes directly to the provider chain fallback. -/
def getCredentials (env : SsoEnv) (creds : Profile) (profileName : String) :
    GetCredsOutcome :=
  if truthyS creds.sso_session then
    match lookupSession env.sessions (creds.sso_session.getD "") with
    | none => .fallback profileName
    | some sc =>
      match sc.startUrl with
      | none => .fallback profileName
      | some startUrl =>
        match resolveToken env startUrl with
        | none => .fallback profileName
        | some _ => exchangeRole env profileName
  else
    .fallback profileName

/-! ## Concrete inputs used by counterexamples and witnesses -/

/-- A profile referencing an sso-session named team-sso. -/
def credsC3 : Profile :=
  { sso_session := some "team-sso", sso_account_id := some "123456789012",
    sso_role_name := some "Dev", region := none }

/-- An environment whose config file defines no sso-session section at
all. -/
def envC3 : SsoEnv :=
  { sessions := [], cacheBefore := [], loginResult := .error "aws: command not found",
    cacheAfter := [], now := 0, roleCredentialsResult := .error "unreachable" }

/-- An environment whose team-sso section exists but has no sso_start_url
line. -/
def envC3b : SsoEnv :=
  { sessions := [("team-sso", { startUrl := none, ssoRegion := some "eu-west-1" })],
    cacheBefore := [], loginResult := .error "aws: command not found",
    cacheAfter := [], now := 0, roleCredentialsResult := .error "unreachable" }

/-- A cache entry that is valid at time 1000 for the corp start URL. -/
def validEntryC4 : CacheEntry :=
  { startUrl := some "https://corp.awsapps.com/start", accessToken := some "tok-abc",
    expiresAt := some 2000 }

/-- A profile referencing the corp sso-session. -/
def credsC4 : Profile :=
  { sso_session := some "corp", sso_account_id := some "111122223333",
    sso_role_name := some "Admin", region := none }

/-- An environment where the cache is empty before login, the external
login command exits non-zero, and yet a valid cache entry is present
after the command ran; the role exchange would succeed with a complete
tuple. -/
def envC4 : SsoEnv :=
  { sessions := [("corp", { startUrl := some "https://corp.awsapps.com/start",
                            ssoRegion := some "us-east-1" })],
    cacheBefore := [],
    loginResult := .error "Command failed: aws sso login --profile dev",
    cacheAfter := [some validEntryC4],
    now := 1000,
    roleCredentialsResult := .ok (some { accessKeyId := some "AKIAEXAMPLE",
                                         secretAccessKey := some "secretExample",
                                         sessionToken := some "sessTokExample",
                                         expiration := some 3000 }) }

/-- The same environment with a login command that exits zero. -/
def envC4b : SsoEnv :=
  { envC4 with loginResult := .ok () }

/-- An operation that fails on the first two attempts and succeeds on the
third. -/
def opC5 : Nat → Except String Nat := fun i =>
  if i == 1 then .error "timeout-1" else if i == 2 then .error "timeout-2" else .ok 42

/-- A cache entry expiring at time 500. -/
def entryC7 : CacheEntry :=
  { startUrl := some "https://x.awsapps.com/start", accessToken := some "tok",
    expiresAt := some 500 }

/-- A session state with a previously selected profile and region. -/
def stC8 : SessionState :=
  { selectedProfile := some "old",
    selectedProfileCredentials := some { accessKeyId := "AKIAOLD",
                                         secretAccessKey := "oldSecret",
                                         sessionToken := none },
    selectedProfileRegion := "eu-west-1" }

/-- Credentials file map: profile dev with region eu-west-1. -/
def cmC9 : ProfileMap := [("dev", [("region", "eu-west-1")])]

/-- Config file map: profile dev with region us-west-2. -/
def gmC9 : ProfileMap := [("dev", [("region", "us-west-2")])]

/-- A session state whose region eu-west-1 was previously selected. -/
def stC10 : SessionState :=
  { selectedProfile := some "old", selectedProfileCredentials := none,
    selectedProfileRegion := "eu-west-1" }

/-- Freshly resolved credentials. -/
def credW : Credentials :=
  { accessKeyId := "AKIANEW", secretAccessKey := "newSecret",
    sessionToken := some "newTok" }

/-! ## Helper lemmas -/

/-- Unfolding lemma for one step of the retry loop. -/
theorem retryLoop_succ {α : Type} (op : Nat → Except String α) (delay attempt fuel : Nat)
    (l : Option String) :
    retryLoop op delay attempt (fuel + 1) l =
      match op attempt with
      | .ok v => (.ok v, [])
      | .error e =>
        if fuel = 0 then
          (.error e, [])
        else
          let r := retryLoop op delay (attempt + 1) fuel (some e)
          (r.1, delay * attempt :: r.2) := rfl

/-- With the source default maxRetries = 3, the retry helper consults the
operation at attempts 1, 2, 3 only, stops at the first success, records
the sleeps delay * 1 and delay * 2 between attempts, and throws the last
error after the third failure. -/
theorem retryAwsOperation_three {α : Type} (f : Nat → Except String α) (d : Nat) :
    retryAwsOperation f 3 d =
      match f 1 with
      | .ok v => (.ok v, [])
      | .error _ =>
        match f 2 with
        | .ok v => (.ok v, [d * 1])
        | .error _ =>
          match f 3 with
          | .ok v => (.ok v, [d * 1, d * 2])
          | .error e => (.error e, [d * 1, d * 2]) := by
  unfold retryAwsOperation
  rw [show (3 : Nat) = 2 + 1 from rfl, retryLoop_succ]
  cases hf1 : f 1 with
  | ok v => rfl
  | error e1 =>
    simp only
    rw [if_neg (by omega : ¬ (2 : Nat) = 0)]
    rw [show (2 : Nat) = 1 + 1 from rfl, retryLoop_succ]
    cases hf2 : f 2 with
    | ok v => rfl
    | error e2 =>
      simp only
      rw [if_neg (by omega : ¬ (1 : Nat) = 0)]
      rw [show (1 : Nat) = 0 + 1 from rfl, retryLoop_succ]
      cases hf3 : f 3 with
      | ok v => rfl
      | error e3 => rfl

/-- Looking up a key present in the second map after the object spread
yields the second map's value, whatever the first map holds. -/
theorem lookupP_spreadMerge_right (a b : ProfileMap) (n : String) (q : AttrBag)
    (h : lookupP b n = some q) : lookupP (spreadMerge a b) n = some q := by
  induction a with
  | nil => simpa [spreadMerge, lookupP] using h
  | cons x xs ih =>
    simp only [spreadMerge, List.filter_cons] at ih ⊢
    by_cases hx : ((lookupP b x.1).isNone : Bool) = true
    · rw [if_pos hx, List.cons_append]
      have hxn : (x.1 == n) = false := by
        rcases hbe : (x.1 == n) with _ | _
        · rfl
        · exfalso
          have hxeq : x.1 = n := by simpa using hbe
          rw [hxeq, h] at hx
          simp at hx
      simp only [lookupP, hxn, Bool.false_eq_true, if_false]
      exact ih
    · rw [if_neg hx]
      exact ih

/-! ## Claim theorems -/

/-- Claim C1 (code bug): a script with no return statement and no trailing
bare expression, for example a lone declaration statement, produces the
success response createTextResponse(JSON.stringify(undefined)) whose text
is undefined — a silent empty success, not the ScriptError / NoReturnValue
failure outcome that the spec and the tool description promise. -/
theorem runAwsCode_noReturn_silent_success :
    runAwsCodeExec [Stmt.other] = RunOutcome.success none ∧
    (runAwsCodeExec [Stmt.other]).isScriptError = false := by
  exact ⟨rfl, rfl⟩

/-- Claim C2 (code bug): listCredentials never raises and always returns a
profile map, but the returned error field is none on every path — even
when both configuration sources fail to load — because each catch clause
assigns to its own catch parameter, which shadows the outer error binding.
The claimed non-null error is never produced. -/
theorem listCredentials_error_never_set :
    (listCredentials (.error "ENOENT: ~/.aws/credentials")
        (.error "ENOENT: ~/.aws/config")).profiles = [] ∧
    (listCredentials (.error "ENOENT: ~/.aws/credentials")
        (.error "ENOENT: ~/.aws/config")).error = none ∧
    ∀ c g : Except String ProfileMap, (listCredentials c g).error = none := by
  exact ⟨rfl, rfl, fun c g => rfl⟩

/-- Claim C3 counterexample: a profile whose sso_session references a
session name that is not defined in the configuration does not fail
resolution with a ConfigError; getCredentials proceeds to the provider
chain fallback. -/
theorem getCredentials_missingSession_not_configError :
    getCredentials envC3 credsC3 "team" = GetCredsOutcome.fallback "team" ∧
    (getCredentials envC3 credsC3 "team").isConfigError = false := by
  exact ⟨rfl, rfl⟩

/-- Claim C3 amended: for every profile with a truthy sso_session key
whose referenced session is undefined or whose session definition lacks a
start URL, the thrown configuration error is swallowed by the outer catch
and resolution falls through to the standard provider chain; no error is
reported to the caller. -/
theorem getCredentials_badSession_fallsThrough (env : SsoEnv) (creds : Profile)
    (pn : String) (h : truthyS creds.sso_session = true)
    (h2 : lookupSession env.sessions (creds.sso_session.getD "") = none ∨
      ∃ sc, lookupSession env.sessions (creds.sso_session.getD "") = some sc ∧
        sc.startUrl = none) :
    getCredentials env creds pn = GetCredsOutcome.fallback pn := by
  rcases h2 with h2 | ⟨sc, h2, h3⟩
  · simp [getCredentials, h, h2]
  · simp [getCredentials, h, h2, h3]

theorem getCredentials_badSession_fallsThrough_witness :
    getCredentials envC3b credsC3 "team" = GetCredsOutcome.fallback "team" :=
  getCredentials_badSession_fallsThrough envC3b credsC3 "team" (by decide)
    (Or.inr ⟨{ startUrl := none, ssoRegion := some "eu-west-1" }, rfl, rfl⟩)

/-- Claim C4 counterexample: when the external login command exits
non-zero, the cache is not re-scanned, so even though a valid cache entry
for the start URL exists after the command (and the role exchange would
succeed), resolution degrades to the provider-chain fallback instead of
SSO success. -/
theorem getCredentials_failedLogin_skips_rescan :
    getCredentials envC4 credsC4 "dev" = GetCredsOutcome.fallback "dev" ∧
    isValidCacheEntry validEntryC4 "https://corp.awsapps.com/start" envC4.now = true ∧
    exchangeRole envC4 "dev" =
      GetCredsOutcome.ssoCredentials { accessKeyId := "AKIAEXAMPLE",
                                       secretAccessKey := "secretExample",
                                       sessionToken := some "sessTokExample" } := by
  refine ⟨rfl, by decide, rfl⟩

/-- Claim C4 amended: when no valid token is cached before login, the
resolver re-scans the cache once only when the external login command
completed without rejection (exit status zero); a rejected login command
(non-zero exit, command not found) skips the re-scan and degrades
resolution to the provider-chain fallthrough rather than aborting, and
after a zero-exit login the outcome is determined by whether the re-scan
finds a valid entry. -/
theorem getCredentials_login_rescan_spec (env : SsoEnv) (creds : Profile) (pn : String)
    (sc : SSOSessionConfig) (startUrl : String)
    (hsso : truthyS creds.sso_session = true)
    (hsess : lookupSession env.sessions (creds.sso_session.getD "") = some sc)
    (hurl : sc.startUrl = some startUrl)
    (hnone : findValidToken env.cacheBefore startUrl env.now = none) :
    (∀ e, env.loginResult = Except.error e →
      getCredentials env creds pn = GetCredsOutcome.fallback pn) ∧
    (env.loginResult = Except.ok () →
      (findValidToken env.cacheAfter startUrl env.now = none →
        getCredentials env creds pn = GetCredsOutcome.fallback pn) ∧
      (∀ t, findValidToken env.cacheAfter startUrl env.now = some t →
        getCredentials env creds pn = exchangeRole env pn)) := by
  constructor
  · intro e he
    simp [getCredentials, hsso, hsess, hurl, resolveToken, hnone, he]
  · intro hok
    constructor
    · intro hafter
      simp [getCredentials, hsso, hsess, hurl, resolveToken, hnone, hok, hafter]
    · intro t hafter
      simp [getCredentials, hsso, hsess, hurl, resolveToken, hnone, hok, hafter]

theorem getCredentials_login_rescan_spec_witness :
    getCredentials envC4b credsC4 "dev" = exchangeRole envC4b "dev" :=
  ((getCredentials_login_rescan_spec envC4b credsC4 "dev"
      { startUrl := some "https://corp.awsapps.com/start", ssoRegion := some "us-east-1" }
      "https://corp.awsapps.com/start" (by decide) rfl rfl rfl).2 rfl).2
    "tok-abc" (by decide)

/-- Claim C5: with the source default of 3 retries, the retry helper
consults the operation on attempts 1 to 3 only (its result depends on
nothing beyond those attempts), sleeps the linearly increasing delays
delay * 1 and delay * 2 between attempts, yields the third-attempt
success after two failures, and after three failures propagates the last
failure to the caller. -/
theorem retryAwsOperation_spec (op op' : Nat → Except String Nat) (d : Nat)
    (e1 e2 e3 : String) (v : Nat) :
    ((∀ i, 1 ≤ i → i ≤ 3 → op i = op' i) →
      retryAwsOperation op 3 d = retryAwsOperation op' 3 d) ∧
    (op 1 = .error e1 → op 2 = .error e2 → op 3 = .ok v →
      retryAwsOperation op 3 d = (.ok v, [d * 1, d * 2])) ∧
    (op 1 = .error e1 → op 2 = .error e2 → op 3 = .error e3 →
      retryAwsOperation op 3 d = (.error e3, [d * 1, d * 2])) := by
  refine ⟨?_, ?_, ?_⟩
  · intro hext
    rw [retryAwsOperation_three op d, retryAwsOperation_three op' d,
      hext 1 (by omega) (by omega), hext 2 (by omega) (by omega),
      hext 3 (by omega) (by omega)]
  · intro h1 h2 h3
    rw [retryAwsOperation_three op d, h1, h2, h3]
  · intro h1 h2 h3
    rw [retryAwsOperation_three op d, h1, h2, h3]

theorem retryAwsOperation_spec_witness :
    retryAwsOperation opC5 3 1000 = (.ok 42, [1000 * 1, 1000 * 2]) :=
  (retryAwsOperation_spec opC5 opC5 1000 "timeout-1" "timeout-2" "unused" 42).2.1
    rfl rfl rfl

/-- Claim C6: the script consisting of the single statement return 42
yields the JSON text 42, and the script consisting of the single bare
expression statement 40 + 2 also yields 42, because wrapUserCode rewrites
a final bare expression statement into an explicit return. -/
theorem execute_roundtrip_42 :
    runAwsCodeExec [Stmt.returnStmt (Expr.lit 42)] = RunOutcome.success (some "42") ∧
    runAwsCodeExec [Stmt.exprStmt (Expr.add (Expr.lit 40) (Expr.lit 2))] =
      RunOutcome.success (some "42") ∧
    wrapUserCode [Stmt.exprStmt (Expr.add (Expr.lit 40) (Expr.lit 2))] =
      [Stmt.returnStmt (Expr.add (Expr.lit 40) (Expr.lit 2))] := by
  refine ⟨by decide, by decide, by decide⟩

/-- Claim C7: a token cache entry is treated as valid exactly when its
start URL equals the session start URL, its access token is present and
truthy, and its expiry timestamp is present and strictly greater than the
current time; an entry whose expiry equals the current time is invalid. -/
theorem isValidCacheEntry_spec (e : CacheEntry) (url : String) (now : Int) :
    (isValidCacheEntry e url now = true ↔
      (e.startUrl = some url ∧ (∃ s, e.accessToken = some s ∧ s ≠ "") ∧
        ∃ t, e.expiresAt = some t ∧ now < t)) ∧
    (e.expiresAt = some now → isValidCacheEntry e url now = false) := by
  obtain ⟨su, tok, ex⟩ := e
  constructor
  · cases tok <;> cases ex <;>
      simp [isValidCacheEntry, truthyS, Bool.and_eq_true, beq_iff_eq,
        decide_eq_true_iff, and_assoc]
  · intro h
    simp only at h
    subst h
    cases tok <;> simp [isValidCacheEntry, truthyS, lt_irrefl]

theorem isValidCacheEntry_spec_witness :
    isValidCacheEntry entryC7 "https://x.awsapps.com/start" 500 = false ∧
    isValidCacheEntry entryC7 "https://x.awsapps.com/start" 499 = true := by
  constructor
  · exact (isValidCacheEntry_spec entryC7 "https://x.awsapps.com/start" 500).2 rfl
  · exact (isValidCacheEntry_spec entryC7 "https://x.awsapps.com/start" 499).1.mpr
      ⟨rfl, ⟨"tok", rfl, by decide⟩, ⟨500, rfl, by decide⟩⟩

/-- Claim C8: the select-profile branch updates session state atomically:
on successful resolution all three fields (profile name, credentials,
region) are overwritten together, and on failed resolution the state is
returned unchanged together with an authentication-failure message. -/
theorem selectProfile_atomic (st : SessionState) (p : String) (r : Option String)
    (cr : Except String Credentials) :
    (∀ c, cr = Except.ok c →
      selectProfileHandler st p r cr =
        ({ selectedProfile := some p, selectedProfileCredentials := some c,
           selectedProfileRegion := jsOr r "us-east-1" }, "Authenticated!")) ∧
    (∀ e, cr = Except.error e →
      (selectProfileHandler st p r cr).1 = st ∧
      (selectProfileHandler st p r cr).2 = "Authentication failed: " ++ e) := by
  constructor
  · intro c hc
    subst hc
    rfl
  · intro e he
    subst he
    exact ⟨rfl, rfl⟩

theorem selectProfile_atomic_witness :
    (selectProfileHandler stC8 "dev" none (Except.error "no credentials")).1 = stC8 ∧
    (selectProfileHandler stC8 "dev" none (Except.error "no credentials")).2 =
      "Authentication failed: " ++ "no credentials" :=
  (selectProfile_atomic stC8 "dev" none (Except.error "no credentials")).2
    "no credentials" rfl

/-- Claim C9: for a profile name defined in both configuration sources,
the merged map returned by listCredentials holds the config-file (second)
source's profile for that name: the second source wins on collision. -/
theorem listCredentials_merge_precedence (cm gm : ProfileMap) (n : String)
    (p q : AttrBag) (hc : lookupP cm n = some p) (hg : lookupP gm n = some q) :
    lookupP ((listCredentials (Except.ok cm) (Except.ok gm)).profiles) n = some q := by
  simpa [listCredentials] using lookupP_spreadMerge_right cm gm n q hg

theorem listCredentials_merge_precedence_witness :
    lookupP ((listCredentials (Except.ok cmC9) (Except.ok gmC9)).profiles) "dev" =
      some [("region", "us-west-2")] :=
  listCredentials_merge_precedence cmC9 gmC9 "dev"
    [("region", "eu-west-1")] [("region", "us-west-2")] (by decide) (by decide)

/-- Claim C10 counterexample: a run-aws-code call that supplies a
profileName and omits the region but whose credential resolution fails
leaves the previously selected region untouched — the region is not set
to us-east-1 on that call, refuting the claim for every such call. -/
theorem runAwsCode_region_preserved_on_failure :
    ((runAwsCodeSession stC10 (some "dev") none
        (Except.error "could not load credentials")).1).selectedProfileRegion =
      "eu-west-1" ∧
    ((runAwsCodeSession stC10 (some "dev") none
        (Except.error "could not load credentials")).1).selectedProfileRegion ≠
      "us-east-1" := by
  exact ⟨rfl, by decide⟩

/-- Claim C10 amended: a run-aws-code call that supplies a truthy
profileName and omits the region sets the session region to us-east-1
when credential resolution succeeds, discarding any previously selected
region (the whole state triple is overwritten); when resolution fails the
state, including the region, is unchanged. -/
theorem runAwsCode_region_reset (st : SessionState) (pn : Option String)
    (c : Credentials) (h : truthyS pn = true) :
    (runAwsCodeSession st pn none (Except.ok c)).1 =
      { selectedProfile := pn, selectedProfileCredentials := some c,
        selectedProfileRegion := "us-east-1" } ∧
    ∀ e, (runAwsCodeSession st pn none (Except.error e)).1 = st := by
  constructor
  · have hf : truthyS (none : Option String) = false := rfl
    simp [runAwsCodeSession, h, jsOr, hf]
  · intro e
    simp [runAwsCodeSession, h]

theorem runAwsCode_region_reset_witness :
    (runAwsCodeSession stC10 (some "dev") none (Except.ok credW)).1 =
      { selectedProfile := some "dev", selectedProfileCredentials := some credW,
        selectedProfileRegion := "us-east-1" } :=
  (runAwsCode_region_reset stC10 (some "dev") credW (by decide)).1

end AwsMcp
